import Mathlib

/-!
Verification development for the gooctranspoapi repository: a Go client for
the OC Transpo transit data feed.  The definitions below are a shallow
embedding of the repository's response-normalisation layer ("cooking"):
`checkErrorCode`, `rawXMLTrip.convert`, the three XML cook functions, and the
GTFS query-builder options.  Go standard-library calls (`strconv.Atoi`,
`strconv.ParseFloat`, `strconv.ParseBool`, `time.ParseInLocation`,
`encoding/json` unmarshalling, `net/url.Values`) are modelled as executable
Lean functions; IEEE-754 float values are represented exactly as rationals,
so `ParseFloat` is modelled on the decimal syntax (the forms the feed emits),
with the parsed value kept exact rather than rounded.
-/

namespace OCT

/-- Numeric value of a list of decimal digit characters (most significant
first), used by the parser models. -/
def digitsVal (l : List Char) : Nat :=
  l.foldl (fun a c => a * 10 + (c.toNat - 48)) 0

/-- Model of Go `strconv.Atoi`: an optional sign followed by at least one
decimal digit, rejecting anything else, with the 64-bit signed range check
Go performs (out-of-range input returns an error). -/
def Atoi (s : String) : Except String Int :=
  let l := s.toList
  let sign : Int := match l with
    | '-' :: _ => -1
    | _ => 1
  let ds : List Char := match l with
    | '+' :: r => r
    | '-' :: r => r
    | r => r
  if ds.isEmpty ∨ ¬ (ds.all Char.isDigit) then
    .error ("strconv.Atoi: parsing " ++ s ++ ": invalid syntax")
  else
    let n : Int := sign * (digitsVal ds : Int)
    if n < -(2 ^ 63) ∨ (2 ^ 63 - 1 : Int) < n then
      .error ("strconv.Atoi: parsing " ++ s ++ ": value out of range")
    else
      .ok n

/-- Model of Go `strconv.ParseBool`: exactly the thirteen literals Go
accepts, everything else is a syntax error. -/
def ParseBool (s : String) : Except String Bool :=
  if s = "1" ∨ s = "t" ∨ s = "T" ∨ s = "TRUE" ∨ s = "true" ∨ s = "True" then
    .ok true
  else if s = "0" ∨ s = "f" ∨ s = "F" ∨ s = "FALSE" ∨ s = "false" ∨ s = "False" then
    .ok false
  else
    .error ("strconv.ParseBool: parsing " ++ s ++ ": invalid syntax")

/-- Model of Go `strconv.ParseFloat(s, 64)` on the decimal forms the feed
emits: optional sign, digits with an optional fractional part (at least one
digit overall), and an optional exponent.  The value is represented exactly
as a rational; IEEE-754 rounding is abstracted away.  Special forms (inf,
NaN, hex floats, digit-group underscores) are outside the model and
rejected, as no claim depends on them. -/
def ParseFloat (s : String) : Except String Rat :=
  let l := s.toList
  let sign : Rat := match l with
    | '-' :: _ => -1
    | _ => 1
  let l1 : List Char := match l with
    | '+' :: r => r
    | '-' :: r => r
    | r => r
  let intPart := l1.takeWhile Char.isDigit
  let rest1 := l1.dropWhile Char.isDigit
  let fracPart : List Char := match rest1 with
    | '.' :: r => r.takeWhile Char.isDigit
    | _ => []
  let rest2 : List Char := match rest1 with
    | '.' :: r => r.dropWhile Char.isDigit
    | r => r
  if intPart.isEmpty ∧ fracPart.isEmpty then
    .error ("strconv.ParseFloat: parsing " ++ s ++ ": invalid syntax")
  else
    let mantissa : Rat :=
      sign * ((digitsVal intPart : Rat) + (digitsVal fracPart : Rat) / ((10 : Rat) ^ fracPart.length))
    match rest2 with
    | [] => .ok mantissa
    | 'e' :: r | 'E' :: r =>
      let esign : Int := match r with
        | '-' :: _ => -1
        | _ => 1
      let eds : List Char := match r with
        | '+' :: r2 => r2
        | '-' :: r2 => r2
        | r2 => r2
      if eds.isEmpty ∨ ¬ (eds.all Char.isDigit) ∨ ¬ (r.dropWhile (fun c => c = '+' ∨ c = '-')).all Char.isDigit then
        .error ("strconv.ParseFloat: parsing " ++ s ++ ": invalid syntax")
      else if esign = 1 then
        .ok (mantissa * (10 : Rat) ^ (digitsVal eds))
      else
        .ok (mantissa / (10 : Rat) ^ (digitsVal eds))
    | _ => .error ("strconv.ParseFloat: parsing " ++ s ++ ": invalid syntax")

/-- A wall-clock date and time, the payload of a parsed
`RequestProcessingTime`. -/
structure DateTime where
  year : Nat
  month : Nat
  day : Nat
  hour : Nat
  minute : Nat
  second : Nat
  deriving DecidableEq, Repr

/-- Days in a month, Gregorian rules, as Go's `time` package validates the
day-of-month during parsing. -/
def daysIn (year month : Nat) : Nat :=
  if month = 2 then
    if year % 4 = 0 ∧ (year % 100 ≠ 0 ∨ year % 400 = 0) then 29 else 28
  else if month = 4 ∨ month = 6 ∨ month = 9 ∨ month = 11 then 30
  else 31

/-- Model of Go `time.ParseInLocation("20060102150405", s, loc)` restricted
to the value it produces: the input must be exactly fourteen decimal digits
and the extracted fields must be in range (month 1..12, day valid for the
month, hour below 24, minute and second below 60), as Go's fixed-width
numeric layout parsing enforces; otherwise a parse error. -/
def ParseInLocation14 (s : String) : Except String DateTime :=
  let l := s.toList
  if l.length = 14 ∧ l.all Char.isDigit then
    let year := digitsVal (l.take 4)
    let month := digitsVal ((l.drop 4).take 2)
    let day := digitsVal ((l.drop 6).take 2)
    let hour := digitsVal ((l.drop 8).take 2)
    let minute := digitsVal ((l.drop 10).take 2)
    let second := digitsVal ((l.drop 12).take 2)
    if 1 ≤ month ∧ month ≤ 12 ∧ 1 ≤ day ∧ day ≤ daysIn year month ∧
        hour ≤ 23 ∧ minute ≤ 59 ∧ second ≤ 59 then
      .ok { year := year, month := month, day := day,
            hour := hour, minute := minute, second := second }
    else
      .error ("parsing time " ++ s ++ ": value out of range")
  else
    .error ("parsing time " ++ s ++ " as 20060102150405: cannot parse")

/-- A Go `time.Time` as the cook produces it: a wall-clock instant tagged
with the IANA zone it was parsed in (`time.LoadLocation` result). -/
structure Time where
  loc : String
  dt : DateTime
  deriving DecidableEq, Repr

/-- From gooctranspoapi.go `checkErrorCode`: maps the five sentinel error
codes to domain errors (with an empty info string), and passes every other
text through as the info string with no error.  The pair mirrors the Go
return `(string, error)`. -/
def checkErrorCode (errorText : String) : String × Option String :=
  if errorText = "1" then
    ("", some "error returned from API - Invalid API key")
  else if errorText = "2" then
    ("", some "error returned from API - Unable to query data source")
  else if errorText = "10" then
    ("", some "error returned from API - Invalid stop number")
  else if errorText = "11" then
    ("", some "error returned from API - Invalid route number")
  else if errorText = "12" then
    ("", some "error returned from API - Stop does not service route")
  else
    (errorText, none)

/-- From gooctranspoapi.go: the optional last-trip-of-schedule flag; `Set`
records whether the API supplied the field.  Defaults are Go's zero
values. -/
structure LastTripOfSchedule where
  Set : Bool := false
  Value : Bool := false
  deriving DecidableEq, Repr

/-- From gooctranspoapi.go: optional latitude (float64 modelled as an exact
rational). -/
structure Latitude where
  Set : Bool := false
  Value : Rat := 0
  deriving DecidableEq, Repr

/-- From gooctranspoapi.go: optional longitude. -/
structure Longitude where
  Set : Bool := false
  Value : Rat := 0
  deriving DecidableEq, Repr

/-- From gooctranspoapi.go: optional GPS speed. -/
structure GPSSpeed where
  Set : Bool := false
  Value : Rat := 0
  deriving DecidableEq, Repr

/-- From gooctranspoapi.go: the cooked `Trip`.  Field defaults are Go's zero
values, matching `ct := Trip{}` in `convert`. -/
structure Trip where
  TripDestination : String := ""
  TripStartTime : String := ""
  AdjustedScheduleTime : Int := 0
  AdjustmentAge : Rat := 0
  LastTripOfSchedule : LastTripOfSchedule := {}
  BusType : String := ""
  Latitude : Latitude := {}
  Longitude : Longitude := {}
  GPSSpeed : GPSSpeed := {}
  deriving DecidableEq, Repr

/-- From gooctranspoapi.go: the wire-shaped trip, every field raw chardata
text. -/
structure rawXMLTrip where
  TripDestination : String := ""
  TripStartTime : String := ""
  AdjustedScheduleTime : String := ""
  AdjustmentAge : String := ""
  LastTripOfSchedule : String := ""
  BusType : String := ""
  Latitude : String := ""
  Longitude : String := ""
  GPSSpeed : String := ""
  deriving DecidableEq, Repr

/-- The `LastTripOfSchedule` if-block of `rawXMLTrip.convert`: empty wire
text yields the absent wrapper (Go literal `LastTripOfSchedule{Set: false}`,
`Value` left at its zero value), non-empty text is parsed as a bool, a parse
failure failing the conversion. -/
def convertLastTrip (s : String) : Except String LastTripOfSchedule :=
  if s = "" then
    .ok { Set := false }
  else
    match ParseBool s with
    | .error e => .error e
    | .ok pLastTripOfSchedule => .ok { Set := true, Value := pLastTripOfSchedule }

/-- The `Latitude` if-block of `rawXMLTrip.convert`. -/
def convertLatitude (s : String) : Except String Latitude :=
  if s = "" then
    .ok { Set := false }
  else
    match ParseFloat s with
    | .error e => .error e
    | .ok pLatitude => .ok { Set := true, Value := pLatitude }

/-- The `Longitude` if-block of `rawXMLTrip.convert`. -/
def convertLongitude (s : String) : Except String Longitude :=
  if s = "" then
    .ok { Set := false }
  else
    match ParseFloat s with
    | .error e => .error e
    | .ok pLongitude => .ok { Set := true, Value := pLongitude }

/-- The `GPSSpeed` if-block of `rawXMLTrip.convert`. -/
def convertGPSSpeed (s : String) : Except String GPSSpeed :=
  if s = "" then
    .ok { Set := false }
  else
    match ParseFloat s with
    | .error e => .error e
    | .ok pGPSSpeed => .ok { Set := true, Value := pGPSSpeed }

/-- From gooctranspoapi.go `rawXMLTrip.convert`: builds the cooked trip
field by field — destination and start time verbatim, the mandatory
schedule time (integer) and adjustment age (float), then the four optional
wrappers — returning the partially built value together with the first
parse error, exactly as the Go method's `(Trip, error)` returns do. -/
def rawXMLTrip.convert (t : rawXMLTrip) : Trip × Option String :=
  let ct0 : Trip := { TripDestination := t.TripDestination, TripStartTime := t.TripStartTime }
  match Atoi t.AdjustedScheduleTime with
  | .error e => (ct0, some e)
  | .ok pAdjustedScheduleTime =>
    let ct1 := { ct0 with AdjustedScheduleTime := pAdjustedScheduleTime }
    match ParseFloat t.AdjustmentAge with
    | .error e => (ct1, some e)
    | .ok pAdjustmentAge =>
      let ct2 := { ct1 with AdjustmentAge := pAdjustmentAge }
      match convertLastTrip t.LastTripOfSchedule with
      | .error e => (ct2, some e)
      | .ok lts =>
        let ct3 := { ct2 with LastTripOfSchedule := lts, BusType := t.BusType }
        match convertLatitude t.Latitude with
        | .error e => (ct3, some e)
        | .ok lat =>
          let ct4 := { ct3 with Latitude := lat }
          match convertLongitude t.Longitude with
          | .error e => (ct4, some e)
          | .ok lon =>
            let ct5 := { ct4 with Longitude := lon }
            match convertGPSSpeed t.GPSSpeed with
            | .error e => (ct5, some e)
            | .ok gps => ({ ct5 with GPSSpeed := gps }, none)

/-- From gooctranspoapi.go: the cooked `Route` of a route summary. -/
structure Route where
  RouteNo : String := ""
  DirectionID : String := ""
  Direction : String := ""
  RouteHeading : String := ""
  deriving DecidableEq, Repr

/-- From gooctranspoapi.go: the cooked `RouteSummaryForStop`. -/
structure RouteSummaryForStop where
  StopNo : String := ""
  StopDescription : String := ""
  Error : String := ""
  Routes : List Route := []
  deriving DecidableEq, Repr

/-- The wire-shaped route entry inside `rawRouteSummaryForStop` (the
anonymous struct under `Routes.Route` in the Go XML mirror). -/
structure rawRoute where
  RouteNo : String := ""
  DirectionID : String := ""
  Direction : String := ""
  RouteHeading : String := ""
  deriving DecidableEq, Repr

/-- From gooctranspoapi.go `rawRouteSummaryForStop`, flattened to the fields
`cook` reads: the chardata of `StopNo`, `StopDescription` and `Error` under
`Body.GetRouteSummaryForStopResponse.GetRouteSummaryForStopResult`, and the
repeated `Routes.Route` elements.  The SOAP envelope/namespace noise the Go
struct carries is never read by `cook` and is omitted. -/
structure rawRouteSummaryForStop where
  StopNo : String := ""
  StopDescription : String := ""
  Error : String := ""
  Route : List rawRoute := []
  deriving DecidableEq, Repr

/-- From gooctranspoapi.go `rawRouteSummaryForStop.cook`: copies the stop
fields, interprets the error channel (aborting on a sentinel code), and
copies the routes in wire order.  The pair mirrors the Go
`(*RouteSummaryForStop, error)` return. -/
def rawRouteSummaryForStop.cook (d : rawRouteSummaryForStop) :
    Option RouteSummaryForStop × Option String :=
  match checkErrorCode d.Error with
  | (_, some err) => (none, some err)
  | (errorText, none) =>
    (some { StopNo := d.StopNo, StopDescription := d.StopDescription,
            Error := errorText,
            Routes := d.Route.map (fun r =>
              { RouteNo := r.RouteNo, DirectionID := r.DirectionID,
                Direction := r.Direction, RouteHeading := r.RouteHeading }) },
     none)

/-- From gooctranspoapi.go: the cooked `RouteDirection` of a
`NextTripsForStop`. -/
structure RouteDirection where
  RouteNo : String := ""
  RouteLabel : String := ""
  Direction : String := ""
  Error : String := ""
  RequestProcessingTime : Time
  Trips : List Trip := []
  deriving DecidableEq, Repr

/-- From gooctranspoapi.go: the cooked `NextTripsForStop`. -/
structure NextTripsForStop where
  StopNo : String := ""
  StopLabel : String := ""
  Error : String := ""
  RouteDirections : List RouteDirection := []
  deriving DecidableEq, Repr

/-- The wire-shaped route direction inside `rawNextTripsForStop` (the
anonymous struct under `Route.RouteDirection` in the Go XML mirror). -/
structure rawRouteDirection where
  RouteNo : String := ""
  RouteLabel : String := ""
  Direction : String := ""
  Error : String := ""
  RequestProcessingTime : String := ""
  Trips : List rawXMLTrip := []
  deriving DecidableEq, Repr

/-- From gooctranspoapi.go `rawNextTripsForStop`, flattened to the fields
`cook` reads (stop number and label chardata, the top-level error chardata,
and the repeated `Route.RouteDirection` elements). -/
structure rawNextTripsForStop where
  StopNo : String := ""
  StopLabel : String := ""
  Error : String := ""
  RouteDirection : List rawRouteDirection := []
  deriving DecidableEq, Repr

/-- The trip loop of the cook functions: converts each wire trip in order,
aborting the whole cook at the first conversion error (the Go `for` loop
with an early `return nil, err`). -/
def cookTrips : List rawXMLTrip → Except String (List Trip)
  | [] => .ok []
  | t :: ts =>
    match t.convert with
    | (_, some e) => .error e
    | (ct, none) =>
      match cookTrips ts with
      | .error e => .error e
      | .ok cts => .ok (ct :: cts)

/-- The route-direction loop of `rawNextTripsForStop.cook`: per direction it
interprets the direction's own error channel, parses the request processing
time in the America/Toronto zone (`time.LoadLocation` modelled as always
succeeding), converts the trips in order, and aborts the whole cook at the
first failure. -/
def cookRouteDirections : List rawRouteDirection → Except String (List RouteDirection)
  | [] => .ok []
  | rd :: rds =>
    match checkErrorCode rd.Error with
    | (_, some e) => .error e
    | (errorText, none) =>
      match ParseInLocation14 rd.RequestProcessingTime with
      | .error e => .error e
      | .ok parsedProcessingTime =>
        match cookTrips rd.Trips with
        | .error e => .error e
        | .ok trips =>
          match cookRouteDirections rds with
          | .error e => .error e
          | .ok rest =>
            .ok ({ RouteNo := rd.RouteNo, RouteLabel := rd.RouteLabel,
                   Direction := rd.Direction, Error := errorText,
                   RequestProcessingTime := { loc := "America/Toronto", dt := parsedProcessingTime },
                   Trips := trips } :: rest)

/-- From gooctranspoapi.go `rawNextTripsForStop.cook`: copies the stop
fields, interprets the top-level error channel, then cooks every route
direction (each with its own error channel, timestamp and trips), aborting
wholesale on the first failure. -/
def rawNextTripsForStop.cook (d : rawNextTripsForStop) :
    Option NextTripsForStop × Option String :=
  match checkErrorCode d.Error with
  | (_, some err) => (none, some err)
  | (errorText, none) =>
    match cookRouteDirections d.RouteDirection with
    | .error e => (none, some e)
    | .ok rds =>
      (some { StopNo := d.StopNo, StopLabel := d.StopLabel,
              Error := errorText, RouteDirections := rds }, none)

/-- From gooctranspoapi.go: the cooked `RouteWithTrips` of a
`NextTripsForStopAllRoutes`. -/
structure RouteWithTrips where
  RouteNo : String := ""
  DirectionID : String := ""
  Direction : String := ""
  RouteHeading : String := ""
  Trips : List Trip := []
  deriving DecidableEq, Repr

/-- From gooctranspoapi.go: the cooked `NextTripsForStopAllRoutes`. -/
structure NextTripsForStopAllRoutes where
  StopNo : String := ""
  StopDescription : String := ""
  Error : String := ""
  Routes : List RouteWithTrips := []
  deriving DecidableEq, Repr

/-- The wire-shaped route entry inside `rawNextTripsForStopAllRoutes`
(route summary fields plus embedded trips; note the wire shape carries no
per-route error field). -/
structure rawRouteWithTrips where
  RouteNo : String := ""
  DirectionID : String := ""
  Direction : String := ""
  RouteHeading : String := ""
  Trips : List rawXMLTrip := []
  deriving DecidableEq, Repr

/-- From gooctranspoapi.go `rawNextTripsForStopAllRoutes`, flattened to the
fields `cook` reads. -/
structure rawNextTripsForStopAllRoutes where
  StopNo : String := ""
  StopDescription : String := ""
  Error : String := ""
  Route : List rawRouteWithTrips := []
  deriving DecidableEq, Repr

/-- The route loop of `rawNextTripsForStopAllRoutes.cook`: copies each
route's summary fields and converts its trips in order, aborting the whole
cook at the first trip conversion error. -/
def cookRoutesWithTrips : List rawRouteWithTrips → Except String (List RouteWithTrips)
  | [] => .ok []
  | rt :: rts =>
    match cookTrips rt.Trips with
    | .error e => .error e
    | .ok trips =>
      match cookRoutesWithTrips rts with
      | .error e => .error e
      | .ok rest =>
        .ok ({ RouteNo := rt.RouteNo, DirectionID := rt.DirectionID,
               Direction := rt.Direction, RouteHeading := rt.RouteHeading,
               Trips := trips } :: rest)

/-- From gooctranspoapi.go `rawNextTripsForStopAllRoutes.cook`: copies the
stop fields, interprets the single top-level error channel (the per-route
wire shape has no error field of its own), then cooks every route with its
trips, aborting wholesale on the first failure. -/
def rawNextTripsForStopAllRoutes.cook (d : rawNextTripsForStopAllRoutes) :
    Option NextTripsForStopAllRoutes × Option String :=
  match checkErrorCode d.Error with
  | (_, some err) => (none, some err)
  | (errorText, none) =>
    match cookRoutesWithTrips d.Route with
    | .error e => (none, some e)
    | .ok rts =>
      (some { StopNo := d.StopNo, StopDescription := d.StopDescription,
              Error := errorText, Routes := rts }, none)

/-- Model of Go `net/url.Values` restricted to single-valued keys as the
client uses them: an association list where `set` replaces any existing
binding and `get` returns the bound value or the empty string. -/
abbrev Values := List (String × String)

/-- `url.Values.Get`: the value bound to `k`, or `""` when absent. -/
def Values.get (v : Values) (k : String) : String :=
  match v.find? (fun p => p.1 = k) with
  | some p => p.2
  | none => ""

/-- `url.Values.Set`: replace any binding of `k` with `val`. -/
def Values.set (v : Values) (k val : String) : Values :=
  (v.filter (fun p => p.1 ≠ k)) ++ [(k, val)]

/-- A GTFS query-modifier option, Go `func(url.Values) error`; the mutation
is modelled by returning the updated values. -/
abbrev GTFSOption := Values → Except String Values

/-- From the current gtfs.go (src/unnamed/part_000) `ID`: select a table row
by id. -/
def ID (id : String) : GTFSOption :=
  fun v => .ok (Values.set v "id" id)

/-- From the current gtfs.go (src/unnamed/part_000) `ColumnAndValue`:
select rows by a column and value. -/
def ColumnAndValue (column value : String) : GTFSOption :=
  fun v => .ok (Values.set (Values.set v "column" column) "value" value)

/-- From the current gtfs.go (src/unnamed/part_000) `OrderBy`: sets the
`orderBy` parameter to the given column name unconditionally — this copy
performs no validation. -/
def OrderBy (orderBy : String) : GTFSOption :=
  fun v => .ok (Values.set v "orderBy" orderBy)

/-- From the current gtfs.go (src/unnamed/part_000) `Direction`: accepts
only `"asc"` or `"desc"`, failing with a configuration error otherwise. -/
def Direction (direction : String) : GTFSOption :=
  fun v =>
    if direction ≠ "asc" ∧ direction ≠ "desc" then
      .error "direction only accepts asc or desc as parameters"
    else
      .ok (Values.set v "direction" direction)

/-- From the current gtfs.go (src/unnamed/part_000) `Limit`: sets the row
limit (`strconv.Itoa` modelled by `toString` on `Int`). -/
def Limit (limit : Int) : GTFSOption :=
  fun v => .ok (Values.set v "limit" (toString limit))

/-- From the current gtfs.go (src/unnamed/part_000) `setTable`. -/
def setTable (table : String) : GTFSOption :=
  fun v => .ok (Values.set v "table" table)

/-- From the older client copy (src/gtfs.go second document, and
src/unnamed/part_001) `OrderBy`: accepts only `"asc"` or `"desc"`, failing
with a configuration error otherwise. -/
def legacyOrderBy (orderBy : String) : GTFSOption :=
  fun v =>
    if orderBy ≠ "asc" ∧ orderBy ≠ "desc" then
      .error "OrderBy only accepts asc or desc as parameters."
    else
      .ok (Values.set v "orderBy" orderBy)

/-- Credentials of a `Connection` as the GTFS query builder reads them. -/
structure Connection where
  ID : String := ""
  Key : String := ""

/-- Apply the option functions left to right, stopping at the first
configuration error, as the `for _, opt := range options` loop does. -/
def applyOptions : List GTFSOption → Values → Except String Values
  | [], v => .ok v
  | opt :: opts, v =>
    match opt v with
    | .error e => .error e
    | .ok v2 => applyOptions opts v2

/-- From src/unnamed/part_000 `setupGTFSURL`: base parameters `appID`,
`apiKey`, `format=json`, then the caller's options in order.  The URL path
is constant and omitted; the result is the encoded query. -/
def setupGTFSURL (c : Connection) (options : List GTFSOption) : Except String Values :=
  applyOptions options
    (Values.set (Values.set (Values.set [] "appID" c.ID) "apiKey" c.Key) "format" "json")

/-- A GTFS table row of the stops table (all wire fields are strings). -/
structure GTFSStopsRow where
  ID : String := ""
  StopID : String := ""
  StopCode : String := ""
  StopName : String := ""
  StopDesc : String := ""
  StopLat : String := ""
  StopLon : String := ""
  ZoneID : String := ""
  StopURL : String := ""
  LocationType : String := ""
  ParentStation : String := ""
  deriving DecidableEq, Repr

/-- The echoed query header of the selector-based GTFS tables. -/
structure GTFSQuery where
  Table : String := ""
  Direction : String := ""
  Column : String := ""
  Value : String := ""
  Format : String := ""
  deriving DecidableEq, Repr

/-- From src/unnamed/part_000 `GTFSStops`. -/
structure GTFSStops where
  Query : GTFSQuery := {}
  Gtfs : List GTFSStopsRow := []
  deriving DecidableEq, Repr

/-- A GTFS stop_times table row. -/
structure GTFSStopTimesRow where
  ID : String := ""
  TripID : String := ""
  ArrivalTime : String := ""
  DepartureTime : String := ""
  StopID : String := ""
  StopSequence : String := ""
  PickupType : String := ""
  DropOffType : String := ""
  deriving DecidableEq, Repr

/-- From src/unnamed/part_000 `GTFSStopTimes`. -/
structure GTFSStopTimes where
  Query : GTFSQuery := {}
  Gtfs : List GTFSStopTimesRow := []
  deriving DecidableEq, Repr

/-- A GTFS trips table row. -/
structure GTFSTripsRow where
  ID : String := ""
  RouteID : String := ""
  ServiceID : String := ""
  TripID : String := ""
  TripHeadsign : String := ""
  DirectionID : String := ""
  BlockID : String := ""
  deriving DecidableEq, Repr

/-- From src/unnamed/part_000 `GTFSTrips`. -/
structure GTFSTrips where
  Query : GTFSQuery := {}
  Gtfs : List GTFSTripsRow := []
  deriving DecidableEq, Repr

/-- From src/unnamed/part_000 `Connection.GetGTFSStops`.  The network and
JSON decode are abstracted into the `net` oracle, consulted only after the
pre-dispatch configuration checks succeed: the table is appended, the query
built, and unless the query names column `stop_id` or `stop_code` or a
non-empty `id`, the call fails with a configuration error before any
request. -/
def GetGTFSStops (c : Connection) (net : Values → Except String GTFSStops)
    (options : List GTFSOption) : Except String GTFSStops :=
  match setupGTFSURL c (options ++ [setTable "stops"]) with
  | .error e => .error e
  | .ok v =>
    if Values.get v "column" ≠ "stop_id" ∧ Values.get v "column" ≠ "stop_code" ∧ Values.get v "id" = "" then
      .error "a stop_id, stop_code or id value must be specified"
    else
      net v

/-- From src/unnamed/part_000 `Connection.GetGTFSStopTimes`: requires column
`trip_id` or `stop_id`, or an `id` value, before dispatch. -/
def GetGTFSStopTimes (c : Connection) (net : Values → Except String GTFSStopTimes)
    (options : List GTFSOption) : Except String GTFSStopTimes :=
  match setupGTFSURL c (options ++ [setTable "stop_times"]) with
  | .error e => .error e
  | .ok v =>
    if Values.get v "column" ≠ "trip_id" ∧ Values.get v "column" ≠ "stop_id" ∧ Values.get v "id" = "" then
      .error "a trip_id, stop_id or id value must be specified"
    else
      net v

/-- From src/unnamed/part_000 `Connection.GetGTFSTrips`: requires column
`route_id` or an `id` value before dispatch. -/
def GetGTFSTrips (c : Connection) (net : Values → Except String GTFSTrips)
    (options : List GTFSOption) : Except String GTFSTrips :=
  match setupGTFSURL c (options ++ [setTable "trips"]) with
  | .error e => .error e
  | .ok v =>
    if Values.get v "column" ≠ "route_id" ∧ Values.get v "id" = "" then
      .error "a route_id or id value must be specified"
    else
      net v

/-- A decoded JSON value, the input to the `encoding/json` unmarshal
model. -/
inductive JSON where
  | null : JSON
  | bool (b : Bool) : JSON
  | num (n : Int) : JSON
  | str (s : String) : JSON
  | arr (xs : List JSON) : JSON
  | obj (fields : List (String × JSON)) : JSON

/-- Keep the earliest unmarshal error, as `encoding/json` reports the first
`UnmarshalTypeError` while completing the rest of the decode. -/
def firstErr : Option String → Option String → Option String
  | some e, _ => some e
  | none, e => e

/-- Unmarshal a JSON value into a Go `string` field: strings are taken,
`null` leaves the field untouched, anything else is a type error that skips
the field, as `encoding/json.Unmarshal` behaves. -/
def unmarshalString (j : JSON) (cur : String) : String × Option String :=
  match j with
  | .str s => (s, none)
  | .null => (cur, none)
  | _ => (cur, some "json: cannot unmarshal value into Go value of type string")

/-- The echoed query header of the GTFS agency table. -/
structure GTFSAgencyQuery where
  Table : String := ""
  Direction : String := ""
  Format : String := ""
  deriving DecidableEq, Repr

/-- A GTFS agency table row. -/
structure GTFSAgencyRow where
  ID : String := ""
  AgencyName : String := ""
  AgencyURL : String := ""
  AgencyTimezone : String := ""
  AgencyLang : String := ""
  AgencyPhone : String := ""
  deriving DecidableEq, Repr

/-- From src/unnamed/part_000 `GTFSAgency`. -/
structure GTFSAgency where
  Query : GTFSAgencyQuery := {}
  Gtfs : List GTFSAgencyRow := []
  deriving DecidableEq, Repr

/-- Unmarshal into the anonymous `Query` struct of `GTFSAgency` (json tags
`table`, `direction`, `format`): object keys are matched against the tags,
unknown keys are ignored, type mismatches skip the field and record the
first error. -/
def unmarshalAgencyQuery (j : JSON) (cur : GTFSAgencyQuery) :
    GTFSAgencyQuery × Option String :=
  match j with
  | .null => (cur, none)
  | .obj fields =>
    fields.foldl (fun (acc : GTFSAgencyQuery × Option String) f =>
      let (q, err) := acc
      if f.1 = "table" then
        let (s, e) := unmarshalString f.2 q.Table
        ({ q with Table := s }, firstErr err e)
      else if f.1 = "direction" then
        let (s, e) := unmarshalString f.2 q.Direction
        ({ q with Direction := s }, firstErr err e)
      else if f.1 = "format" then
        let (s, e) := unmarshalString f.2 q.Format
        ({ q with Format := s }, firstErr err e)
      else
        (q, err)) (cur, none)
  | _ => (cur, some "json: cannot unmarshal value into Go struct field GTFSAgency.Query")

/-- Unmarshal one agency row (json tags `id`, `agency_name`, `agency_url`,
`agency_timezone`, `agency_lang`, `agency_phone`). -/
def unmarshalAgencyRow (j : JSON) : GTFSAgencyRow × Option String :=
  match j with
  | .obj fields =>
    fields.foldl (fun (acc : GTFSAgencyRow × Option String) f =>
      let (r, err) := acc
      if f.1 = "id" then
        let (s, e) := unmarshalString f.2 r.ID
        ({ r with ID := s }, firstErr err e)
      else if f.1 = "agency_name" then
        let (s, e) := unmarshalString f.2 r.AgencyName
        ({ r with AgencyName := s }, firstErr err e)
      else if f.1 = "agency_url" then
        let (s, e) := unmarshalString f.2 r.AgencyURL
        ({ r with AgencyURL := s }, firstErr err e)
      else if f.1 = "agency_timezone" then
        let (s, e) := unmarshalString f.2 r.AgencyTimezone
        ({ r with AgencyTimezone := s }, firstErr err e)
      else if f.1 = "agency_lang" then
        let (s, e) := unmarshalString f.2 r.AgencyLang
        ({ r with AgencyLang := s }, firstErr err e)
      else if f.1 = "agency_phone" then
        let (s, e) := unmarshalString f.2 r.AgencyPhone
        ({ r with AgencyPhone := s }, firstErr err e)
      else
        (r, err)) ({}, none)
  | .null => ({}, none)
  | _ => ({}, some "json: cannot unmarshal value into Go struct field GTFSAgency.Gtfs")

/-- Unmarshal the `Gtfs` slice of agency rows: each element is decoded,
recording the first element error while completing the rest. -/
def unmarshalAgencyRows (j : JSON) : List GTFSAgencyRow × Option String :=
  match j with
  | .arr xs =>
    xs.foldl (fun (acc : List GTFSAgencyRow × Option String) x =>
      let (r, e) := unmarshalAgencyRow x
      (acc.1 ++ [r], firstErr acc.2 e)) ([], none)
  | .null => ([], none)
  | _ => ([], some "json: cannot unmarshal value into Go struct field GTFSAgency.Gtfs")

/-- Model of `json.NewDecoder(body).Decode(&GTFSAgency{})` on an already
scanned JSON value: decode each matched top-level key, skipping mismatched
fields and reporting the earliest type error while completing the rest, as
`encoding/json` does. -/
def unmarshalGTFSAgency (j : JSON) : GTFSAgency × Option String :=
  match j with
  | .obj fields =>
    fields.foldl (fun (acc : GTFSAgency × Option String) f =>
      let (d, err) := acc
      if f.1 = "Query" then
        let (q, e) := unmarshalAgencyQuery f.2 d.Query
        ({ d with Query := q }, firstErr err e)
      else if f.1 = "Gtfs" then
        let (rs, e) := unmarshalAgencyRows f.2
        ({ d with Gtfs := rs }, firstErr err e)
      else
        (d, err)) ({}, none)
  | .null => ({}, none)
  | _ => ({}, some "json: cannot unmarshal value into Go value of type GTFSAgency")

/-- From src/unnamed/part_000 `Connection.GetGTFSAgency`.  The transport is
the `net` oracle: `.error` is a dispatch failure (`performGTFSRequest`
returning an error, where Go returns `nil, err`); `.ok (.error e)` is a
JSON syntax error found while scanning the body (the target struct is left
at its zero value); `.ok (.ok j)` is a scanned JSON value, which is
unmarshalled.  The final `return data, err` hands the caller the decoded
struct pointer together with any decode error, exactly as the Go code
does. -/
def GetGTFSAgency (c : Connection)
    (net : Values → Except String (Except String JSON))
    (options : List GTFSOption) : Option GTFSAgency × Option String :=
  match setupGTFSURL c (options ++ [setTable "agency"]) with
  | .error e => (none, some e)
  | .ok v =>
    match net v with
    | .error e => (none, some e)
    | .ok (.error e) => (some {}, some e)
    | .ok (.ok j) =>
      let (data, err) := unmarshalGTFSAgency j
      (some data, err)

/-- From gooctranspoapi.go `Connection.GetRouteSummaryForStop`: the
dispatch and XML decode are the `net` oracle (both return `nil, err` in Go
on failure); on success the raw envelope is cooked. -/
def GetRouteSummaryForStop (c : Connection)
    (net : Values → Except String rawRouteSummaryForStop)
    (stopNo : String) : Option RouteSummaryForStop × Option String :=
  match net (Values.set (Values.set (Values.set [] "appID" c.ID) "apiKey" c.Key) "stopNo" stopNo) with
  | .error e => (none, some e)
  | .ok data => data.cook

/-- From gooctranspoapi.go `Connection.GetNextTripsForStop`. -/
def GetNextTripsForStop (c : Connection)
    (net : Values → Except String rawNextTripsForStop)
    (routeNo stopNo : String) : Option NextTripsForStop × Option String :=
  match net (Values.set (Values.set (Values.set (Values.set [] "appID" c.ID) "apiKey" c.Key)
      "routeNo" routeNo) "stopNo" stopNo) with
  | .error e => (none, some e)
  | .ok data => data.cook

/-- From gooctranspoapi.go `Connection.GetNextTripsForStopAllRoutes`. -/
def GetNextTripsForStopAllRoutes (c : Connection)
    (net : Values → Except String rawNextTripsForStopAllRoutes)
    (stopNo : String) : Option NextTripsForStopAllRoutes × Option String :=
  match net (Values.set (Values.set (Values.set [] "appID" c.ID) "apiKey" c.Key) "stopNo" stopNo) with
  | .error e => (none, some e)
  | .ok data => data.cook

/-! ## Shared lemmas -/

lemma checkErrorCode_not_sentinel (s : String)
    (h1 : s ≠ "1") (h2 : s ≠ "2") (h10 : s ≠ "10") (h11 : s ≠ "11") (h12 : s ≠ "12") :
    checkErrorCode s = (s, none) := by
  simp [checkErrorCode, h1, h2, h10, h11, h12]

lemma checkErrorCode_fst_of_ok (s : String) (h : (checkErrorCode s).2 = none) :
    (checkErrorCode s).1 = s := by
  unfold checkErrorCode at h ⊢
  split_ifs at h ⊢
  all_goals simp_all

lemma convertLastTrip_ok (s : String) (l : LastTripOfSchedule)
    (h : convertLastTrip s = .ok l) :
    (s = "" ∧ l = { Set := false, Value := false }) ∨
      (s ≠ "" ∧ ∃ b, ParseBool s = .ok b ∧ l = { Set := true, Value := b }) := by
  unfold convertLastTrip at h
  split_ifs at h with hs
  · exact Or.inl ⟨hs, by injection h with h; exact h.symm⟩
  · cases hb : ParseBool s with
    | error e => rw [hb] at h; cases h
    | ok b =>
      rw [hb] at h
      exact Or.inr ⟨hs, b, rfl, by injection h with h; exact h.symm⟩

lemma convertLatitude_ok (s : String) (l : Latitude)
    (h : convertLatitude s = .ok l) :
    (s = "" ∧ l = { Set := false, Value := 0 }) ∨
      (s ≠ "" ∧ ∃ q, ParseFloat s = .ok q ∧ l = { Set := true, Value := q }) := by
  unfold convertLatitude at h
  split_ifs at h with hs
  · exact Or.inl ⟨hs, by injection h with h; exact h.symm⟩
  · cases hb : ParseFloat s with
    | error e => rw [hb] at h; cases h
    | ok q =>
      rw [hb] at h
      exact Or.inr ⟨hs, q, rfl, by injection h with h; exact h.symm⟩

lemma convertLongitude_ok (s : String) (l : Longitude)
    (h : convertLongitude s = .ok l) :
    (s = "" ∧ l = { Set := false, Value := 0 }) ∨
      (s ≠ "" ∧ ∃ q, ParseFloat s = .ok q ∧ l = { Set := true, Value := q }) := by
  unfold convertLongitude at h
  split_ifs at h with hs
  · exact Or.inl ⟨hs, by injection h with h; exact h.symm⟩
  · cases hb : ParseFloat s with
    | error e => rw [hb] at h; cases h
    | ok q =>
      rw [hb] at h
      exact Or.inr ⟨hs, q, rfl, by injection h with h; exact h.symm⟩

lemma convertGPSSpeed_ok (s : String) (l : GPSSpeed)
    (h : convertGPSSpeed s = .ok l) :
    (s = "" ∧ l = { Set := false, Value := 0 }) ∨
      (s ≠ "" ∧ ∃ q, ParseFloat s = .ok q ∧ l = { Set := true, Value := q }) := by
  unfold convertGPSSpeed at h
  split_ifs at h with hs
  · exact Or.inl ⟨hs, by injection h with h; exact h.symm⟩
  · cases hb : ParseFloat s with
    | error e => rw [hb] at h; cases h
    | ok q =>
      rw [hb] at h
      exact Or.inr ⟨hs, q, rfl, by injection h with h; exact h.symm⟩

/-- Success characterisation of `rawXMLTrip.convert`: a trip converts with
no error exactly when every mandatory and non-empty optional field parses,
and then the cooked trip is built from the parsed pieces. -/
lemma convert_ok (t : rawXMLTrip) (ct : Trip) (h : t.convert = (ct, none)) :
    ∃ a g lts lat lon gps,
      Atoi t.AdjustedScheduleTime = .ok a ∧
      ParseFloat t.AdjustmentAge = .ok g ∧
      convertLastTrip t.LastTripOfSchedule = .ok lts ∧
      convertLatitude t.Latitude = .ok lat ∧
      convertLongitude t.Longitude = .ok lon ∧
      convertGPSSpeed t.GPSSpeed = .ok gps ∧
      ct = { TripDestination := t.TripDestination, TripStartTime := t.TripStartTime,
             AdjustedScheduleTime := a, AdjustmentAge := g,
             LastTripOfSchedule := lts, BusType := t.BusType,
             Latitude := lat, Longitude := lon, GPSSpeed := gps } := by
  unfold rawXMLTrip.convert at h
  cases hA : Atoi t.AdjustedScheduleTime with
  | error e => rw [hA] at h; simp at h
  | ok a =>
    rw [hA] at h
    cases hG : ParseFloat t.AdjustmentAge with
    | error e => rw [hG] at h; simp at h
    | ok g =>
      rw [hG] at h
      cases hL : convertLastTrip t.LastTripOfSchedule with
      | error e => rw [hL] at h; simp at h
      | ok lts =>
        rw [hL] at h
        cases hLa : convertLatitude t.Latitude with
        | error e => rw [hLa] at h; simp at h
        | ok lat =>
          rw [hLa] at h
          cases hLo : convertLongitude t.Longitude with
          | error e => rw [hLo] at h; simp at h
          | ok lon =>
            rw [hLo] at h
            cases hGp : convertGPSSpeed t.GPSSpeed with
            | error e => rw [hGp] at h; simp at h
            | ok gps =>
              rw [hGp] at h
              simp only [Prod.mk.injEq] at h
              exact ⟨a, g, lts, lat, lon, gps, rfl, rfl, rfl, rfl, rfl, rfl, h.1.symm⟩

/-- Success characterisation of the trip loop: every trip converted with no
error, results in wire order. -/
lemma cookTrips_ok (ts : List rawXMLTrip) (l : List Trip) (h : cookTrips ts = .ok l) :
    l = ts.map (fun t => t.convert.1) ∧ ∀ t ∈ ts, t.convert.2 = none := by
  induction ts generalizing l with
  | nil =>
    unfold cookTrips at h
    injection h with h
    simp [h.symm]
  | cons t ts ih =>
    unfold cookTrips at h
    cases hc : t.convert with
    | mk ct err =>
      rw [hc] at h
      cases err with
      | some e => simp at h
      | none =>
        cases hr : cookTrips ts with
        | error e => rw [hr] at h; cases h
        | ok cts =>
          rw [hr] at h
          injection h with h
          obtain ⟨ih1, ih2⟩ := ih cts hr
          subst h
          refine ⟨by simp [ih1, hc], ?_⟩
          intro u hu
          rw [List.mem_cons] at hu
          rcases hu with rfl | hu
          · rw [hc]
          · exact ih2 u hu

/-- A trip whose conversion fails anywhere in the list fails the whole trip
loop. -/
lemma cookTrips_err_of_mem (ts : List rawXMLTrip) (t : rawXMLTrip)
    (ht : t ∈ ts) (h : t.convert.2 ≠ none) :
    ∃ e, cookTrips ts = .error e := by
  induction ts with
  | nil => cases ht
  | cons u ts ih =>
    unfold cookTrips
    cases hc : u.convert with
    | mk ct err =>
      cases err with
      | some e => exact ⟨e, rfl⟩
      | none =>
        rw [List.mem_cons] at ht
        rcases ht with rfl | hu
        · rw [hc] at h; simp at h
        · obtain ⟨e, he⟩ := ih hu
          rw [he]
          exact ⟨e, rfl⟩

/-- Success characterisation of the route-direction loop. -/
lemma cookRouteDirections_ok (rds : List rawRouteDirection) (l : List RouteDirection)
    (h : cookRouteDirections rds = .ok l) :
    List.Forall₂ (fun rd (crd : RouteDirection) =>
      crd.RouteNo = rd.RouteNo ∧ crd.RouteLabel = rd.RouteLabel ∧
      crd.Direction = rd.Direction ∧
      (checkErrorCode rd.Error).2 = none ∧ crd.Error = (checkErrorCode rd.Error).1 ∧
      (∃ dt, ParseInLocation14 rd.RequestProcessingTime = .ok dt ∧
        crd.RequestProcessingTime = { loc := "America/Toronto", dt := dt }) ∧
      cookTrips rd.Trips = .ok crd.Trips) rds l := by
  induction rds generalizing l with
  | nil =>
    unfold cookRouteDirections at h
    injection h with h
    subst h
    exact List.Forall₂.nil
  | cons rd rds ih =>
    unfold cookRouteDirections at h
    cases hc : checkErrorCode rd.Error with
    | mk errorText err =>
      rw [hc] at h
      cases err with
      | some e => simp at h
      | none =>
        cases hp : ParseInLocation14 rd.RequestProcessingTime with
        | error e => rw [hp] at h; cases h
        | ok dt =>
          rw [hp] at h
          cases htr : cookTrips rd.Trips with
          | error e => rw [htr] at h; cases h
          | ok trips =>
            rw [htr] at h
            cases hr : cookRouteDirections rds with
            | error e => rw [hr] at h; cases h
            | ok rest =>
              rw [hr] at h
              injection h with h
              subst h
              refine List.Forall₂.cons ⟨rfl, rfl, rfl, by rw [hc], by rw [hc], ⟨dt, hp, rfl⟩, htr⟩ (ih rest hr)

/-- A route direction that fails any of its steps (its own error channel, the
processing-time parse, or a trip conversion) fails the whole loop. -/
lemma cookRouteDirections_err_of_mem (rds : List rawRouteDirection) (rd : rawRouteDirection)
    (hrd : rd ∈ rds)
    (h : (checkErrorCode rd.Error).2 ≠ none ∨
      (∀ dt, ParseInLocation14 rd.RequestProcessingTime ≠ .ok dt) ∨
      (∀ l, cookTrips rd.Trips ≠ .ok l)) :
    ∃ e, cookRouteDirections rds = .error e := by
  induction rds with
  | nil => cases hrd
  | cons u rds ih =>
    unfold cookRouteDirections
    cases hc : checkErrorCode u.Error with
    | mk errorText err =>
      cases err with
      | some e => exact ⟨e, rfl⟩
      | none =>
        cases hp : ParseInLocation14 u.RequestProcessingTime with
        | error e => exact ⟨e, rfl⟩
        | ok dt =>
          cases htr : cookTrips u.Trips with
          | error e => exact ⟨e, rfl⟩
          | ok trips =>
            rw [List.mem_cons] at hrd
            rcases hrd with rfl | hu
            · rcases h with h | h | h
              · rw [hc] at h; simp at h
              · exact absurd hp (h dt)
              · exact absurd htr (h trips)
            · obtain ⟨e, he⟩ := ih hu
              rw [he]
              exact ⟨e, rfl⟩

/-- Success characterisation of the all-routes route loop. -/
lemma cookRoutesWithTrips_ok (rts : List rawRouteWithTrips) (l : List RouteWithTrips)
    (h : cookRoutesWithTrips rts = .ok l) :
    List.Forall₂ (fun rt (crt : RouteWithTrips) =>
      crt.RouteNo = rt.RouteNo ∧ crt.DirectionID = rt.DirectionID ∧
      crt.Direction = rt.Direction ∧ crt.RouteHeading = rt.RouteHeading ∧
      cookTrips rt.Trips = .ok crt.Trips) rts l := by
  induction rts generalizing l with
  | nil =>
    unfold cookRoutesWithTrips at h
    injection h with h
    subst h
    exact List.Forall₂.nil
  | cons rt rts ih =>
    unfold cookRoutesWithTrips at h
    cases htr : cookTrips rt.Trips with
    | error e => rw [htr] at h; cases h
    | ok trips =>
      rw [htr] at h
      cases hr : cookRoutesWithTrips rts with
      | error e => rw [hr] at h; cases h
      | ok rest =>
        rw [hr] at h
        injection h with h
        subst h
        exact List.Forall₂.cons ⟨rfl, rfl, rfl, rfl, htr⟩ (ih rest hr)

/-- Success characterisation of `rawRouteSummaryForStop.cook`. -/
lemma cook_summary_ok (d : rawRouteSummaryForStop) (v : RouteSummaryForStop)
    (h : d.cook = (some v, none)) :
    (checkErrorCode d.Error).2 = none ∧
      v = { StopNo := d.StopNo, StopDescription := d.StopDescription,
            Error := (checkErrorCode d.Error).1,
            Routes := d.Route.map (fun r =>
              { RouteNo := r.RouteNo, DirectionID := r.DirectionID,
                Direction := r.Direction, RouteHeading := r.RouteHeading }) } := by
  unfold rawRouteSummaryForStop.cook at h
  cases hc : checkErrorCode d.Error with
  | mk errorText err =>
    rw [hc] at h
    cases err with
    | some e => simp at h
    | none =>
      simp only [Prod.mk.injEq, Option.some.injEq] at h
      obtain ⟨h1, -⟩ := h
      subst h1
      simp [hc]

/-- `rawRouteSummaryForStop.cook` returns either a value with no error or an
error with no value. -/
lemma cook_summary_cases (d : rawRouteSummaryForStop) :
    (∃ v, d.cook = (some v, none)) ∨ (∃ e, d.cook = (none, some e)) := by
  unfold rawRouteSummaryForStop.cook
  cases hc : checkErrorCode d.Error with
  | mk errorText err =>
    cases err with
    | some e => exact Or.inr ⟨e, rfl⟩
    | none => exact Or.inl ⟨_, rfl⟩

/-- Success characterisation of `rawNextTripsForStop.cook`. -/
lemma cook_next_ok (d : rawNextTripsForStop) (v : NextTripsForStop)
    (h : d.cook = (some v, none)) :
    (checkErrorCode d.Error).2 = none ∧ v.StopNo = d.StopNo ∧
      v.StopLabel = d.StopLabel ∧ v.Error = (checkErrorCode d.Error).1 ∧
      cookRouteDirections d.RouteDirection = .ok v.RouteDirections := by
  unfold rawNextTripsForStop.cook at h
  cases hc : checkErrorCode d.Error with
  | mk errorText err =>
    rw [hc] at h
    cases err with
    | some e => simp at h
    | none =>
      cases hr : cookRouteDirections d.RouteDirection with
      | error e => rw [hr] at h; simp at h
      | ok rds =>
        rw [hr] at h
        simp only [Prod.mk.injEq, Option.some.injEq] at h
        obtain ⟨h1, -⟩ := h
        subst h1
        simp [hc, hr]

/-- `rawNextTripsForStop.cook` fails wholesale (no value, an error) when the
top-level error channel carries a sentinel or any route direction fails. -/
lemma cook_next_fails (d : rawNextTripsForStop)
    (h : (checkErrorCode d.Error).2 ≠ none ∨
      ∃ e, cookRouteDirections d.RouteDirection = .error e) :
    d.cook.1 = none ∧ d.cook.2 ≠ none := by
  unfold rawNextTripsForStop.cook
  cases hc : checkErrorCode d.Error with
  | mk errorText err =>
    cases err with
    | some e => exact ⟨rfl, by simp⟩
    | none =>
      rcases h with h | ⟨e, he⟩
      · rw [hc] at h; simp at h
      · rw [he]
        exact ⟨rfl, by simp⟩

/-- `rawNextTripsForStop.cook` returns either a value with no error or an
error with no value. -/
lemma cook_next_cases (d : rawNextTripsForStop) :
    (∃ v, d.cook = (some v, none)) ∨ (∃ e, d.cook = (none, some e)) := by
  unfold rawNextTripsForStop.cook
  cases hc : checkErrorCode d.Error with
  | mk errorText err =>
    cases err with
    | some e => exact Or.inr ⟨e, rfl⟩
    | none =>
      cases hr : cookRouteDirections d.RouteDirection with
      | error e => exact Or.inr ⟨e, rfl⟩
      | ok rds => exact Or.inl ⟨_, rfl⟩

/-- Success characterisation of `rawNextTripsForStopAllRoutes.cook`. -/
lemma cook_all_ok (d : rawNextTripsForStopAllRoutes) (v : NextTripsForStopAllRoutes)
    (h : d.cook = (some v, none)) :
    (checkErrorCode d.Error).2 = none ∧ v.StopNo = d.StopNo ∧
      v.StopDescription = d.StopDescription ∧ v.Error = (checkErrorCode d.Error).1 ∧
      cookRoutesWithTrips d.Route = .ok v.Routes := by
  unfold rawNextTripsForStopAllRoutes.cook at h
  cases hc : checkErrorCode d.Error with
  | mk errorText err =>
    rw [hc] at h
    cases err with
    | some e => simp at h
    | none =>
      cases hr : cookRoutesWithTrips d.Route with
      | error e => rw [hr] at h; simp at h
      | ok rts =>
        rw [hr] at h
        simp only [Prod.mk.injEq, Option.some.injEq] at h
        obtain ⟨h1, -⟩ := h
        subst h1
        simp [hc, hr]

/-- `rawNextTripsForStopAllRoutes.cook` returns either a value with no error
or an error with no value. -/
lemma cook_all_cases (d : rawNextTripsForStopAllRoutes) :
    (∃ v, d.cook = (some v, none)) ∨ (∃ e, d.cook = (none, some e)) := by
  unfold rawNextTripsForStopAllRoutes.cook
  cases hc : checkErrorCode d.Error with
  | mk errorText err =>
    cases err with
    | some e => exact Or.inr ⟨e, rfl⟩
    | none =>
      cases hr : cookRoutesWithTrips d.Route with
      | error e => exact Or.inr ⟨e, rfl⟩
      | ok rts => exact Or.inl ⟨_, rfl⟩

/-! ## Claims -/

/-- C1: `checkErrorCode` maps exactly the sentinel codes "1", "2", "10",
"11", "12" to domain errors (invalid API key, unable to query data source,
invalid stop number, invalid route number, stop does not service route)
with an empty info string, and returns every other input verbatim as the
info field with no error. -/
theorem claim_C1 :
    checkErrorCode "1" = ("", some "error returned from API - Invalid API key") ∧
    checkErrorCode "2" = ("", some "error returned from API - Unable to query data source") ∧
    checkErrorCode "10" = ("", some "error returned from API - Invalid stop number") ∧
    checkErrorCode "11" = ("", some "error returned from API - Invalid route number") ∧
    checkErrorCode "12" = ("", some "error returned from API - Stop does not service route") ∧
    ∀ s : String, s ≠ "1" → s ≠ "2" → s ≠ "10" → s ≠ "11" → s ≠ "12" →
      checkErrorCode s = (s, none) := by
  refine ⟨rfl, rfl, rfl, rfl, rfl, ?_⟩
  intro s h1 h2 h10 h11 h12
  exact checkErrorCode_not_sentinel s h1 h2 h10 h11 h12

/-- Witness for C1 at the inputs the spec names: the empty string and
"TestErrorStringHere" pass through with no error. -/
theorem claim_C1_witness :
    checkErrorCode "" = ("", none) ∧
    checkErrorCode "TestErrorStringHere" = ("TestErrorStringHere", none) :=
  ⟨claim_C1.2.2.2.2.2 "" (by decide) (by decide) (by decide) (by decide) (by decide),
   claim_C1.2.2.2.2.2 "TestErrorStringHere"
     (by decide) (by decide) (by decide) (by decide) (by decide)⟩

/-- C2: in a successful conversion each of the four optional fields is
absent exactly when its wire text is empty and otherwise carries exactly the
parsed value; a non-empty unparseable optional field fails the whole
conversion, and a failed conversion fails the trip loop of any containing
response. -/
theorem claim_C2 :
    (∀ t ct, rawXMLTrip.convert t = (ct, none) →
      (t.LastTripOfSchedule = "" → ct.LastTripOfSchedule = { Set := false, Value := false }) ∧
      (t.LastTripOfSchedule ≠ "" →
        ∃ b, ParseBool t.LastTripOfSchedule = .ok b ∧
          ct.LastTripOfSchedule = { Set := true, Value := b }) ∧
      (t.Latitude = "" → ct.Latitude = { Set := false, Value := 0 }) ∧
      (t.Latitude ≠ "" →
        ∃ q, ParseFloat t.Latitude = .ok q ∧ ct.Latitude = { Set := true, Value := q }) ∧
      (t.Longitude = "" → ct.Longitude = { Set := false, Value := 0 }) ∧
      (t.Longitude ≠ "" →
        ∃ q, ParseFloat t.Longitude = .ok q ∧ ct.Longitude = { Set := true, Value := q }) ∧
      (t.GPSSpeed = "" → ct.GPSSpeed = { Set := false, Value := 0 }) ∧
      (t.GPSSpeed ≠ "" →
        ∃ q, ParseFloat t.GPSSpeed = .ok q ∧ ct.GPSSpeed = { Set := true, Value := q })) ∧
    (∀ t : rawXMLTrip,
      ((t.LastTripOfSchedule ≠ "" ∧ ∀ b, ParseBool t.LastTripOfSchedule ≠ .ok b) ∨
       (t.Latitude ≠ "" ∧ ∀ q, ParseFloat t.Latitude ≠ .ok q) ∨
       (t.Longitude ≠ "" ∧ ∀ q, ParseFloat t.Longitude ≠ .ok q) ∨
       (t.GPSSpeed ≠ "" ∧ ∀ q, ParseFloat t.GPSSpeed ≠ .ok q)) →
      t.convert.2 ≠ none) ∧
    (∀ (t : rawXMLTrip) ts, t ∈ ts → t.convert.2 ≠ none →
      ∃ e, cookTrips ts = .error e) := by
  refine ⟨?_, ?_, fun t ts ht h => cookTrips_err_of_mem ts t ht h⟩
  · intro t ct h
    obtain ⟨a, g, lts, lat, lon, gps, _, _, hL, hLa, hLo, hGp, hct⟩ := convert_ok t ct h
    subst hct
    refine ⟨?_, ?_, ?_, ?_, ?_, ?_, ?_, ?_⟩
    · intro hs
      rcases convertLastTrip_ok _ _ hL with ⟨_, hl⟩ | ⟨hne, _⟩
      · exact hl
      · exact absurd hs hne
    · intro hs
      rcases convertLastTrip_ok _ _ hL with ⟨he, _⟩ | ⟨_, b, hb, hl⟩
      · exact absurd he hs
      · exact ⟨b, hb, hl⟩
    · intro hs
      rcases convertLatitude_ok _ _ hLa with ⟨_, hl⟩ | ⟨hne, _⟩
      · exact hl
      · exact absurd hs hne
    · intro hs
      rcases convertLatitude_ok _ _ hLa with ⟨he, _⟩ | ⟨_, q, hq, hl⟩
      · exact absurd he hs
      · exact ⟨q, hq, hl⟩
    · intro hs
      rcases convertLongitude_ok _ _ hLo with ⟨_, hl⟩ | ⟨hne, _⟩
      · exact hl
      · exact absurd hs hne
    · intro hs
      rcases convertLongitude_ok _ _ hLo with ⟨he, _⟩ | ⟨_, q, hq, hl⟩
      · exact absurd he hs
      · exact ⟨q, hq, hl⟩
    · intro hs
      rcases convertGPSSpeed_ok _ _ hGp with ⟨_, hl⟩ | ⟨hne, _⟩
      · exact hl
      · exact absurd hs hne
    · intro hs
      rcases convertGPSSpeed_ok _ _ hGp with ⟨he, _⟩ | ⟨_, q, hq, hl⟩
      · exact absurd he hs
      · exact ⟨q, hq, hl⟩
  · intro t hbad h
    obtain ⟨a, g, lts, lat, lon, gps, _, _, hL, hLa, hLo, hGp, _⟩ :=
      convert_ok t t.convert.1 (by rw [← h])
    rcases hbad with ⟨hne, hnb⟩ | ⟨hne, hnb⟩ | ⟨hne, hnb⟩ | ⟨hne, hnb⟩
    · rcases convertLastTrip_ok _ _ hL with ⟨he, _⟩ | ⟨_, b, hb, _⟩
      · exact hne he
      · exact hnb b hb
    · rcases convertLatitude_ok _ _ hLa with ⟨he, _⟩ | ⟨_, q, hq, _⟩
      · exact hne he
      · exact hnb q hq
    · rcases convertLongitude_ok _ _ hLo with ⟨he, _⟩ | ⟨_, q, hq, _⟩
      · exact hne he
      · exact hnb q hq
    · rcases convertGPSSpeed_ok _ _ hGp with ⟨he, _⟩ | ⟨_, q, hq, _⟩
      · exact hne he
      · exact hnb q hq

/-- Witness for C2 on a concrete trip taken from the repository's test
fixture: a present optional field carries the parsed value, and an
unparseable one fails the trip loop. -/
theorem claim_C2_witness :
    (∃ b, ParseBool "false" = Except.ok b ∧
      (rawXMLTrip.convert
        { TripDestination := "Riverview", TripStartTime := "11:13",
          AdjustedScheduleTime := "16", AdjustmentAge := "0.34",
          LastTripOfSchedule := "false", BusType := "6EB - 60",
          Latitude := "45.431521", Longitude := "-75.605296",
          GPSSpeed := "63.0" }).1.LastTripOfSchedule = { Set := true, Value := b }) ∧
    (∃ e, cookTrips [{ AdjustedScheduleTime := "16", AdjustmentAge := "0.2", Latitude := "bad" }] = .error e) := by
  constructor
  · exact (claim_C2.1
      { TripDestination := "Riverview", TripStartTime := "11:13",
        AdjustedScheduleTime := "16", AdjustmentAge := "0.34",
        LastTripOfSchedule := "false", BusType := "6EB - 60",
        Latitude := "45.431521", Longitude := "-75.605296",
        GPSSpeed := "63.0" }
      _ rfl).2.1 (by decide)
  · exact claim_C2.2.2
      { AdjustedScheduleTime := "16", AdjustmentAge := "0.2", Latitude := "bad" }
      [{ AdjustedScheduleTime := "16", AdjustmentAge := "0.2", Latitude := "bad" }]
      (List.mem_singleton.mpr rfl) (by decide)

/-- C3: a trip whose mandatory `AdjustedScheduleTime` does not parse as an
integer or whose `AdjustmentAge` does not parse as a float (both fail on
empty text) fails its conversion, and a failed trip conversion anywhere in
a `NextTripsForStop` response fails the whole cook with no partial value. -/
theorem claim_C3 :
    (∀ t : rawXMLTrip,
      ((∀ n, Atoi t.AdjustedScheduleTime ≠ .ok n) ∨
       (∀ q, ParseFloat t.AdjustmentAge ≠ .ok q)) →
      t.convert.2 ≠ none) ∧
    Atoi "" = .error "strconv.Atoi: parsing : invalid syntax" ∧
    ParseFloat "" = .error "strconv.ParseFloat: parsing : invalid syntax" ∧
    (∀ (d : rawNextTripsForStop) rd (t : rawXMLTrip),
      rd ∈ d.RouteDirection → t ∈ rd.Trips → t.convert.2 ≠ none →
      d.cook.1 = none ∧ d.cook.2 ≠ none) := by
  refine ⟨?_, rfl, rfl, ?_⟩
  · intro t hbad h
    obtain ⟨a, g, lts, lat, lon, gps, hA, hG, _, _, _, _, _⟩ :=
      convert_ok t t.convert.1 (by rw [← h])
    rcases hbad with hbad | hbad
    · exact hbad a hA
    · exact hbad g hG
  · intro d rd t hrd ht h
    obtain ⟨e, he⟩ := cookTrips_err_of_mem rd.Trips t ht h
    refine cook_next_fails d (Or.inr ?_)
    exact cookRouteDirections_err_of_mem d.RouteDirection rd hrd
      (Or.inr (Or.inr (fun l hl => by rw [he] at hl; cases hl)))

/-- Witness for C3: a trip with empty mandatory fields fails, and a response
containing it cooks to an error with no value. -/
theorem claim_C3_witness :
    ({ RouteDirection := [{ Trips := [{}] }] } : rawNextTripsForStop).cook.1 = none ∧
    ({ RouteDirection := [{ Trips := [{}] }] } : rawNextTripsForStop).cook.2 ≠ none := by
  refine claim_C3.2.2.2 _ { Trips := [{}] } {} ?_ ?_ ?_
  · exact List.mem_singleton.mpr rfl
  · exact List.mem_singleton.mpr rfl
  · decide

/-- C4: cooking a `NextTripsForStop` parses each route direction's
`RequestProcessingTime` with the fixed 14-digit layout in the agency's fixed
America/Toronto zone — the wire value "20180831114042" yields the instant
2018-08-31 11:40:42 in that zone — and a direction whose text does not
parse fails the entire cook. -/
theorem claim_C4 :
    (∀ (d : rawNextTripsForStop) v, d.cook = (some v, none) →
      List.Forall₂ (fun rd (crd : RouteDirection) =>
        ∃ dt, ParseInLocation14 rd.RequestProcessingTime = .ok dt ∧
          crd.RequestProcessingTime = { loc := "America/Toronto", dt := dt })
        d.RouteDirection v.RouteDirections) ∧
    (∀ (d : rawNextTripsForStop) rd, rd ∈ d.RouteDirection →
      (∀ dt, ParseInLocation14 rd.RequestProcessingTime ≠ .ok dt) →
      d.cook.1 = none ∧ d.cook.2 ≠ none) ∧
    ParseInLocation14 "20180831114042" =
      .ok { year := 2018, month := 8, day := 31, hour := 11, minute := 40, second := 42 } := by
  refine ⟨?_, ?_, rfl⟩
  · intro d v h
    obtain ⟨-, -, -, -, hr⟩ := cook_next_ok d v h
    exact (cookRouteDirections_ok d.RouteDirection v.RouteDirections hr).imp
      (fun _ _ hp => hp.2.2.2.2.2.1)
  · intro d rd hrd hp
    exact cook_next_fails d (Or.inr
      (cookRouteDirections_err_of_mem d.RouteDirection rd hrd (Or.inr (Or.inl hp))))

/-- Witness for C4: a direction whose processing time does not match the
layout fails the whole cook of a concrete response. -/
theorem claim_C4_witness :
    ({ RouteDirection := [{ RequestProcessingTime := "bad" }] } : rawNextTripsForStop).cook.1 = none ∧
    ({ RouteDirection := [{ RequestProcessingTime := "bad" }] } : rawNextTripsForStop).cook.2 ≠ none := by
  refine claim_C4.2.1 _ { RequestProcessingTime := "bad" } (List.mem_singleton.mpr rfl) ?_
  intro dt h
  rw [show ParseInLocation14 "bad" =
    Except.error "parsing time bad as 20060102150405: cannot parse" from rfl] at h
  cases h

/-- C5: the error-code interpreter runs at both nesting levels of a
`NextTripsForStop` response — a sentinel at the top level or in any route
direction aborts the whole cook with a domain error, while informational
strings at either level are carried into the cooked `Error` fields — and
likewise at the (single) top level of the all-routes response. -/
theorem claim_C5 :
    (∀ (d : rawNextTripsForStop) e, (checkErrorCode d.Error).2 = some e →
      d.cook = (none, some e)) ∧
    (∀ (d : rawNextTripsForStop) rd, rd ∈ d.RouteDirection →
      (checkErrorCode rd.Error).2 ≠ none → d.cook.1 = none ∧ d.cook.2 ≠ none) ∧
    (∀ (d : rawNextTripsForStop) v, d.cook = (some v, none) →
      v.Error = (checkErrorCode d.Error).1 ∧
      List.Forall₂ (fun rd (crd : RouteDirection) => crd.Error = (checkErrorCode rd.Error).1)
        d.RouteDirection v.RouteDirections) ∧
    (∀ (d : rawNextTripsForStopAllRoutes) e, (checkErrorCode d.Error).2 = some e →
      d.cook = (none, some e)) ∧
    (∀ (d : rawNextTripsForStopAllRoutes) v, d.cook = (some v, none) →
      v.Error = (checkErrorCode d.Error).1) := by
  refine ⟨?_, ?_, ?_, ?_, ?_⟩
  · intro d e h
    unfold rawNextTripsForStop.cook
    cases hc : checkErrorCode d.Error with
    | mk errorText err =>
      rw [hc] at h
      cases err with
      | some e2 => injection h with h; rw [h]
      | none => cases h
  · intro d rd hrd h
    exact cook_next_fails d (Or.inr
      (cookRouteDirections_err_of_mem d.RouteDirection rd hrd (Or.inl h)))
  · intro d v h
    obtain ⟨-, -, -, hE, hr⟩ := cook_next_ok d v h
    refine ⟨hE, (cookRouteDirections_ok d.RouteDirection v.RouteDirections hr).imp
      (fun _ _ hp => ?_)⟩
    rw [hp.2.2.2.2.1]
  · intro d e h
    unfold rawNextTripsForStopAllRoutes.cook
    cases hc : checkErrorCode d.Error with
    | mk errorText err =>
      rw [hc] at h
      cases err with
      | some e2 => injection h with h; rw [h]
      | none => cases h
  · intro d v h
    exact (cook_all_ok d v h).2.2.2.1

/-- Witness for C5: a sentinel code "10" at the top level of a concrete
response aborts the cook with the invalid-stop-number domain error. -/
theorem claim_C5_witness :
    ({ Error := "10" } : rawNextTripsForStop).cook =
      (none, some "error returned from API - Invalid stop number") :=
  claim_C5.1 { Error := "10" } _ rfl

/-- C6 counterexample: in the current gtfs.go (src/unnamed/part_000) the
`OrderBy` option applied with the argument "up" does not fail — it succeeds
and sets `orderBy` to "up". -/
theorem claim_C6_counterexample :
    OrderBy "up" [] = .ok [("orderBy", "up")] := rfl

/-- C6 amended: only the older client copy's `OrderBy` (src/gtfs.go second
document, src/unnamed/part_001) rejects arguments other than "asc"/"desc"
before dispatch and sets `orderBy` on those; in the current copy
(src/unnamed/part_000) `OrderBy` sets the parameter unconditionally and it
is the `Direction` option that accepts only "asc"/"desc", failing with a
configuration error otherwise. -/
theorem claim_C6_amended :
    (∀ s v, s ≠ "asc" → s ≠ "desc" →
      legacyOrderBy s v = .error "OrderBy only accepts asc or desc as parameters." ∧
      Direction s v = .error "direction only accepts asc or desc as parameters") ∧
    (∀ v, legacyOrderBy "asc" v = .ok (Values.set v "orderBy" "asc") ∧
      legacyOrderBy "desc" v = .ok (Values.set v "orderBy" "desc") ∧
      Direction "asc" v = .ok (Values.set v "direction" "asc") ∧
      Direction "desc" v = .ok (Values.set v "direction" "desc")) ∧
    (∀ s v, OrderBy s v = .ok (Values.set v "orderBy" s)) := by
  refine ⟨?_, ?_, fun s v => rfl⟩
  · intro s v ha hd
    constructor
    · unfold legacyOrderBy
      rw [if_pos ⟨ha, hd⟩]
    · unfold Direction
      rw [if_pos ⟨ha, hd⟩]
  · intro v
    refine ⟨?_, ?_, ?_, ?_⟩ <;> simp [legacyOrderBy, Direction]

/-- Witness for C6 amended, at the argument "up" the spec names. -/
theorem claim_C6_witness :
    legacyOrderBy "up" [] = .error "OrderBy only accepts asc or desc as parameters." ∧
    Direction "up" [] = .error "direction only accepts asc or desc as parameters" :=
  claim_C6_amended.1 "up" [] (by decide) (by decide)

/-- C7 counterexample: `GetGTFSAgency` can return a partially populated
table value together with a non-nil error — a JSON body whose `Query`
object decodes but whose `Gtfs` member has the wrong type yields both a
value carrying the decoded `Query` (not the zero value) and an unmarshal
error. -/
theorem claim_C7_counterexample :
    GetGTFSAgency {} (fun _ => .ok (.ok (JSON.obj [("Query", JSON.obj [("table", JSON.str "agency")]), ("Gtfs", JSON.num 5)]))) [] =
      (some { Query := { Table := "agency", Direction := "", Format := "" }, Gtfs := [] },
       some "json: cannot unmarshal value into Go struct field GTFSAgency.Gtfs") ∧
    ({ Query := { Table := "agency", Direction := "", Format := "" }, Gtfs := [] } : GTFSAgency) ≠ {} :=
  ⟨rfl, by decide⟩

/-- C7 amended: the real-time endpoint query functions return a strict
disjunction — a cooked value with no error or an error with no value — but
the tabular GTFS getters hand back the decoded-so-far table value together
with the decode error, as `GetGTFSAgency` returns whatever the JSON
unmarshal produced alongside its error. -/
theorem claim_C7_amended :
    (∀ c net stopNo, (∃ v, GetRouteSummaryForStop c net stopNo = (some v, none)) ∨
      (∃ e, GetRouteSummaryForStop c net stopNo = (none, some e))) ∧
    (∀ c net routeNo stopNo,
      (∃ v, GetNextTripsForStop c net routeNo stopNo = (some v, none)) ∨
      (∃ e, GetNextTripsForStop c net routeNo stopNo = (none, some e))) ∧
    (∀ c net stopNo, (∃ v, GetNextTripsForStopAllRoutes c net stopNo = (some v, none)) ∨
      (∃ e, GetNextTripsForStopAllRoutes c net stopNo = (none, some e))) ∧
    (∀ c net options v j, setupGTFSURL c (options ++ [setTable "agency"]) = .ok v →
      net v = .ok (.ok j) →
      GetGTFSAgency c net options =
        (some (unmarshalGTFSAgency j).1, (unmarshalGTFSAgency j).2)) := by
  refine ⟨?_, ?_, ?_, ?_⟩
  · intro c net stopNo
    unfold GetRouteSummaryForStop
    cases net (Values.set (Values.set (Values.set [] "appID" c.ID) "apiKey" c.Key) "stopNo" stopNo) with
    | error e => exact Or.inr ⟨e, rfl⟩
    | ok data => exact cook_summary_cases data
  · intro c net routeNo stopNo
    unfold GetNextTripsForStop
    cases net (Values.set (Values.set (Values.set (Values.set [] "appID" c.ID) "apiKey" c.Key) "routeNo" routeNo) "stopNo" stopNo) with
    | error e => exact Or.inr ⟨e, rfl⟩
    | ok data => exact cook_next_cases data
  · intro c net stopNo
    unfold GetNextTripsForStopAllRoutes
    cases net (Values.set (Values.set (Values.set [] "appID" c.ID) "apiKey" c.Key) "stopNo" stopNo) with
    | error e => exact Or.inr ⟨e, rfl⟩
    | ok data => exact cook_all_cases data
  · intro c net options v j hs hn
    unfold GetGTFSAgency
    simp only [hs, hn]

/-- Witness for C7 amended: a concrete dispatch returning a null JSON body
decodes to the zero table value with no error. -/
theorem claim_C7_witness :
    GetGTFSAgency {} (fun _ => .ok (.ok JSON.null)) [] = (some {}, none) :=
  claim_C7_amended.2.2.2 {} (fun _ => .ok (.ok JSON.null)) []
    [("appID", ""), ("apiKey", ""), ("format", "json"), ("table", "agency")] JSON.null rfl rfl

/-- C8: when the built query supplies neither an `id` value nor a column
from the endpoint's mandated set, `GetGTFSStops` (stop_id/stop_code),
`GetGTFSStopTimes` (trip_id/stop_id) and `GetGTFSTrips` (route_id) fail
with a configuration error whatever the network would answer — i.e. before
any request is made. -/
theorem claim_C8 :
    (∀ c options v net, setupGTFSURL c (options ++ [setTable "stops"]) = .ok v →
      Values.get v "column" ≠ "stop_id" → Values.get v "column" ≠ "stop_code" →
      Values.get v "id" = "" →
      GetGTFSStops c net options = .error "a stop_id, stop_code or id value must be specified") ∧
    (∀ c options v net, setupGTFSURL c (options ++ [setTable "stop_times"]) = .ok v →
      Values.get v "column" ≠ "trip_id" → Values.get v "column" ≠ "stop_id" →
      Values.get v "id" = "" →
      GetGTFSStopTimes c net options = .error "a trip_id, stop_id or id value must be specified") ∧
    (∀ c options v net, setupGTFSURL c (options ++ [setTable "trips"]) = .ok v →
      Values.get v "column" ≠ "route_id" → Values.get v "id" = "" →
      GetGTFSTrips c net options = .error "a route_id or id value must be specified") := by
  refine ⟨?_, ?_, ?_⟩
  · intro c options v net hs h1 h2 h3
    unfold GetGTFSStops
    simp only [hs]
    rw [if_pos ⟨h1, h2, h3⟩]
  · intro c options v net hs h1 h2 h3
    unfold GetGTFSStopTimes
    simp only [hs]
    rw [if_pos ⟨h1, h2, h3⟩]
  · intro c options v net hs h1 h2
    unfold GetGTFSTrips
    simp only [hs]
    rw [if_pos ⟨h1, h2⟩]

/-- Witness for C8: with no options at all (no selector), all three calls
fail with their configuration errors, for an arbitrary concrete network
oracle. -/
theorem claim_C8_witness :
    GetGTFSStops {} (fun _ => .ok {}) [] =
      .error "a stop_id, stop_code or id value must be specified" ∧
    GetGTFSStopTimes {} (fun _ => .ok {}) [] =
      .error "a trip_id, stop_id or id value must be specified" ∧
    GetGTFSTrips {} (fun _ => .ok {}) [] =
      .error "a route_id or id value must be specified" :=
  ⟨claim_C8.1 {} [] [("appID", ""), ("apiKey", ""), ("format", "json"), ("table", "stops")]
      (fun _ => .ok {}) rfl (by decide) (by decide) rfl,
   claim_C8.2.1 {} [] [("appID", ""), ("apiKey", ""), ("format", "json"), ("table", "stop_times")]
      (fun _ => .ok {}) rfl (by decide) (by decide) rfl,
   claim_C8.2.2 {} [] [("appID", ""), ("apiKey", ""), ("format", "json"), ("table", "trips")]
      (fun _ => .ok {}) rfl (by decide) rfl⟩

/-- C9: successful cooks copy every plain text field verbatim (stop
number, stop description/label, route number/label, direction, heading,
trip destination, trip start time, bus type) and keep every repeated
sequence (Routes, RouteDirections, Trips) in wire order with no dropping,
duplication or reordering; in particular the test envelope for
`GetRouteSummaryForStop` cooks to exactly its wire fields with the two
routes in order. -/
theorem claim_C9 :
    (∀ (d : rawRouteSummaryForStop) v, d.cook = (some v, none) →
      v.StopNo = d.StopNo ∧ v.StopDescription = d.StopDescription ∧ v.Error = d.Error ∧
      v.Routes = d.Route.map (fun r =>
        { RouteNo := r.RouteNo, DirectionID := r.DirectionID,
          Direction := r.Direction, RouteHeading := r.RouteHeading })) ∧
    (∀ (d : rawNextTripsForStopAllRoutes) v, d.cook = (some v, none) →
      v.StopNo = d.StopNo ∧ v.StopDescription = d.StopDescription ∧
      List.Forall₂ (fun rt (crt : RouteWithTrips) =>
        crt.RouteNo = rt.RouteNo ∧ crt.DirectionID = rt.DirectionID ∧
        crt.Direction = rt.Direction ∧ crt.RouteHeading = rt.RouteHeading ∧
        crt.Trips = rt.Trips.map (fun t => t.convert.1)) d.Route v.Routes) ∧
    (∀ (d : rawNextTripsForStop) v, d.cook = (some v, none) →
      v.StopNo = d.StopNo ∧ v.StopLabel = d.StopLabel ∧
      List.Forall₂ (fun rd (crd : RouteDirection) =>
        crd.RouteNo = rd.RouteNo ∧ crd.RouteLabel = rd.RouteLabel ∧
        crd.Direction = rd.Direction ∧
        crd.Trips = rd.Trips.map (fun t => t.convert.1)) d.RouteDirection v.RouteDirections) ∧
    (∀ t ct, rawXMLTrip.convert t = (ct, none) →
      ct.TripDestination = t.TripDestination ∧ ct.TripStartTime = t.TripStartTime ∧
      ct.BusType = t.BusType) ∧
    rawRouteSummaryForStop.cook
      { StopNo := "7659", StopDescription := "BANK / FIFTH", Error := "TestErrorStringHere",
        Route := [{ RouteNo := "6", DirectionID := "1", Direction := "Northbound", RouteHeading := "Rockcliffe" }, { RouteNo := "7", DirectionID := "1", Direction := "Eastbound", RouteHeading := "St-Laurent" }] } =
      (some
        { StopNo := "7659", StopDescription := "BANK / FIFTH", Error := "TestErrorStringHere",
          Routes := [{ RouteNo := "6", DirectionID := "1", Direction := "Northbound", RouteHeading := "Rockcliffe" }, { RouteNo := "7", DirectionID := "1", Direction := "Eastbound", RouteHeading := "St-Laurent" }] },
       none) := by
  refine ⟨?_, ?_, ?_, ?_, rfl⟩
  · intro d v h
    obtain ⟨hcec, hv⟩ := cook_summary_ok d v h
    subst hv
    exact ⟨rfl, rfl, checkErrorCode_fst_of_ok d.Error hcec, rfl⟩
  · intro d v h
    obtain ⟨-, hNo, hDesc, -, hr⟩ := cook_all_ok d v h
    refine ⟨hNo, hDesc, (cookRoutesWithTrips_ok d.Route v.Routes hr).imp (fun rt crt hp => ?_)⟩
    obtain ⟨h1, h2, h3, h4, h5⟩ := hp
    exact ⟨h1, h2, h3, h4, (cookTrips_ok rt.Trips crt.Trips h5).1⟩
  · intro d v h
    obtain ⟨-, hNo, hLabel, -, hr⟩ := cook_next_ok d v h
    refine ⟨hNo, hLabel, (cookRouteDirections_ok d.RouteDirection v.RouteDirections hr).imp
      (fun rd crd hp => ?_)⟩
    exact ⟨hp.1, hp.2.1, hp.2.2.1, (cookTrips_ok rd.Trips crd.Trips hp.2.2.2.2.2.2).1⟩
  · intro t ct h
    obtain ⟨a, g, lts, lat, lon, gps, -, -, -, -, -, -, hct⟩ := convert_ok t ct h
    subst hct
    exact ⟨rfl, rfl, rfl⟩

/-- Witness for C9: the trip text fields of a concrete converted trip are
the wire texts. -/
theorem claim_C9_witness :
    (rawXMLTrip.convert { TripDestination := "Riverview", TripStartTime := "11:13", AdjustedScheduleTime := "16", AdjustmentAge := "0.34", LastTripOfSchedule := "false", BusType := "6EB - 60", Latitude := "45.431521", Longitude := "-75.605296", GPSSpeed := "63.0" }).1.TripDestination = "Riverview" ∧
    (rawXMLTrip.convert { TripDestination := "Riverview", TripStartTime := "11:13", AdjustedScheduleTime := "16", AdjustmentAge := "0.34", LastTripOfSchedule := "false", BusType := "6EB - 60", Latitude := "45.431521", Longitude := "-75.605296", GPSSpeed := "63.0" }).1.TripStartTime = "11:13" ∧
    (rawXMLTrip.convert { TripDestination := "Riverview", TripStartTime := "11:13", AdjustedScheduleTime := "16", AdjustmentAge := "0.34", LastTripOfSchedule := "false", BusType := "6EB - 60", Latitude := "45.431521", Longitude := "-75.605296", GPSSpeed := "63.0" }).1.BusType = "6EB - 60" :=
  claim_C9.2.2.2.1
    { TripDestination := "Riverview", TripStartTime := "11:13", AdjustedScheduleTime := "16",
      AdjustmentAge := "0.34", LastTripOfSchedule := "false", BusType := "6EB - 60",
      Latitude := "45.431521", Longitude := "-75.605296", GPSSpeed := "63.0" } _ rfl

/-- C10: in every successfully converted trip, each optional wrapper's `Set`
flag is true exactly when the wire text was non-empty, and an absent
wrapper's payload is the type's zero value (false, or 0). -/
theorem claim_C10 :
    ∀ t ct, rawXMLTrip.convert t = (ct, none) →
      (ct.LastTripOfSchedule.Set = true ↔ t.LastTripOfSchedule ≠ "") ∧
      (ct.LastTripOfSchedule.Set = false → ct.LastTripOfSchedule.Value = false) ∧
      (ct.Latitude.Set = true ↔ t.Latitude ≠ "") ∧
      (ct.Latitude.Set = false → ct.Latitude.Value = 0) ∧
      (ct.Longitude.Set = true ↔ t.Longitude ≠ "") ∧
      (ct.Longitude.Set = false → ct.Longitude.Value = 0) ∧
      (ct.GPSSpeed.Set = true ↔ t.GPSSpeed ≠ "") ∧
      (ct.GPSSpeed.Set = false → ct.GPSSpeed.Value = 0) := by
  intro t ct h
  obtain ⟨a, g, lts, lat, lon, gps, -, -, hL, hLa, hLo, hGp, hct⟩ := convert_ok t ct h
  subst hct
  refine ⟨?_, ?_, ?_, ?_, ?_, ?_, ?_, ?_⟩
  · rcases convertLastTrip_ok _ _ hL with ⟨hs, hl⟩ | ⟨hs, b, -, hl⟩ <;> simp [hl, hs]
  · rcases convertLastTrip_ok _ _ hL with ⟨-, hl⟩ | ⟨-, b, -, hl⟩ <;> simp [hl]
  · rcases convertLatitude_ok _ _ hLa with ⟨hs, hl⟩ | ⟨hs, q, -, hl⟩ <;> simp [hl, hs]
  · rcases convertLatitude_ok _ _ hLa with ⟨-, hl⟩ | ⟨-, q, -, hl⟩ <;> simp [hl]
  · rcases convertLongitude_ok _ _ hLo with ⟨hs, hl⟩ | ⟨hs, q, -, hl⟩ <;> simp [hl, hs]
  · rcases convertLongitude_ok _ _ hLo with ⟨-, hl⟩ | ⟨-, q, -, hl⟩ <;> simp [hl]
  · rcases convertGPSSpeed_ok _ _ hGp with ⟨hs, hl⟩ | ⟨hs, q, -, hl⟩ <;> simp [hl, hs]
  · rcases convertGPSSpeed_ok _ _ hGp with ⟨-, hl⟩ | ⟨-, q, -, hl⟩ <;> simp [hl]

/-- Witness for C10: a converted trip with all optional fields empty has
absent wrappers whose payloads are the zero values. -/
theorem claim_C10_witness :
    (rawXMLTrip.convert { AdjustedScheduleTime := "16", AdjustmentAge := "0.34" }).1.GPSSpeed.Value = 0 ∧
    (rawXMLTrip.convert { AdjustedScheduleTime := "16", AdjustmentAge := "0.34" }).1.LastTripOfSchedule.Value = false := by
  have h := claim_C10 { AdjustedScheduleTime := "16", AdjustmentAge := "0.34" } _ rfl
  exact ⟨h.2.2.2.2.2.2.2 rfl, h.2.1 rfl⟩

end OCT
